import Mathlib

/-!
Verification of the Polygon migration pipeline.

Shallow embedding of the test-case migration core of the repository:
the storage backends (problems/storage_manager.py), the Redis test-case
cache, the signed API client and the checker pipeline
(problems/polygon_api.py), and the storage-migration branch of the
orchestrator view (problems/views.py).

Modelling conventions:
- Python machine integers and byte values are `Nat`, with explicit
  `% 2 ^ 64` where 64-bit wrapping matters (SHA-512).
- The Redis store is a function from key strings to an optional pair of
  an absolute expiry instant and a payload; `setex` writes the pair and
  a read observes the payload only strictly before its expiry instant.
- The JSON serialization done by `json.dumps`/`json.loads` on the flat
  test-case records is modelled as the injective constructor `RVal.tc`
  (the record itself), since the claims only depend on the encoding
  being an injective round trip on these records.
- External effects (HTTP calls, the C++ toolchain, blob uploads) enter
  as explicit oracle inputs describing the outcome of each call, and
  functions return the list of effects they perform.
-/

namespace PolygonMigration

/-! ## Decimal rendering (Python `str(n)` and `f"..{n:02d}.."`) -/

/-- Character of a single decimal digit `d < 10`. -/
def decDigitChar (d : Nat) : Char := Char.ofNat (48 + d)

/-- Fuel-driven most-significant-first decimal digits of `n` (empty for 0). -/
def decDigitsAux : Nat → Nat → List Char
  | 0, _ => []
  | _ + 1, 0 => []
  | fuel + 1, n + 1 =>
      decDigitsAux fuel ((n + 1) / 10) ++ [decDigitChar ((n + 1) % 10)]

/-- Decimal rendering of a natural number, the embedding of Python `str(n)`
for nonnegative `n` (and of the `repr` used when an integer is interpolated
into an f-string or URL-encoded). -/
def natToDec (n : Nat) : String :=
  if n = 0 then "0" else ⟨decDigitsAux n n⟩

/-- Numeric value of a decimal digit character. -/
def decDigitVal (c : Char) : Nat := c.toNat - 48

/-- Value of a most-significant-first digit string; left inverse of
`decDigitsAux`, used to show decimal rendering is injective. -/
def decValue (l : List Char) : Nat :=
  l.foldl (fun a c => 10 * a + decDigitVal c) 0

/-- Embedding of the Python format specifier `{n:02d}` for `n ≥ 0`:
zero-pad the decimal rendering on the left to a minimum width of 2. -/
def pyFmt02d (n : Nat) : String :=
  if n < 10 then "0" ++ natToDec n else natToDec n

/-- Embedding of Python `p.startswith(s)` ≈ `s` begins with `p`, and of the
glob pattern `p*` used with `redis.scan_iter`. -/
def strStartsWith (p s : String) : Bool := p.data.isPrefixOf s.data

/-! ## Storage backends (problems/storage_manager.py)

Each of the five backends derives the object names for a test case pair
from the container-relative template `test_cases/{problem}/{number:02d}`
(input) and the same with suffix `.a` (expected output). The key
derivations are transcribed separately per backend, from the lines of
each class. `os.path.join` is modelled with the POSIX separator. -/

/-- S3StorageManager.upload_test_case input key (storage_manager.py:51). -/
def s3_input_key (db_problem_id : String) (test_number : Nat) : String :=
  "test_cases/" ++ db_problem_id ++ "/" ++ pyFmt02d test_number

/-- S3StorageManager.upload_test_case output key (storage_manager.py:52). -/
def s3_output_key (db_problem_id : String) (test_number : Nat) : String :=
  "test_cases/" ++ db_problem_id ++ "/" ++ pyFmt02d test_number ++ ".a"

/-- R2StorageManager.upload_test_case input key (storage_manager.py:135). -/
def r2_input_key (db_problem_id : String) (test_number : Nat) : String :=
  "test_cases/" ++ db_problem_id ++ "/" ++ pyFmt02d test_number

/-- R2StorageManager.upload_test_case output key (storage_manager.py:136). -/
def r2_output_key (db_problem_id : String) (test_number : Nat) : String :=
  "test_cases/" ++ db_problem_id ++ "/" ++ pyFmt02d test_number ++ ".a"

/-- AzureBlobManager.upload_test_case input blob name (storage_manager.py:411). -/
def azure_input_blob_name (db_problem_id : String) (test_number : Nat) : String :=
  "test_cases/" ++ db_problem_id ++ "/" ++ pyFmt02d test_number

/-- AzureBlobManager.upload_test_case output blob name (storage_manager.py:412). -/
def azure_output_blob_name (db_problem_id : String) (test_number : Nat) : String :=
  "test_cases/" ++ db_problem_id ++ "/" ++ pyFmt02d test_number ++ ".a"

/-- LocalStorageManager.upload_test_case input file path
(storage_manager.py:332-336): base/container/test_cases/problem/NN. -/
def local_input_file (base_path container_name db_problem_id : String)
    (test_number : Nat) : String :=
  base_path ++ "/" ++ container_name ++ "/" ++ "test_cases" ++ "/" ++
    db_problem_id ++ "/" ++ pyFmt02d test_number

/-- LocalStorageManager.upload_test_case output file path
(storage_manager.py:338). -/
def local_output_file (base_path container_name db_problem_id : String)
    (test_number : Nat) : String :=
  base_path ++ "/" ++ container_name ++ "/" ++ "test_cases" ++ "/" ++
    db_problem_id ++ "/" ++ pyFmt02d test_number ++ ".a"

/-- GoogleDriveStorageManager.upload_test_case folder chain
(storage_manager.py:251-253): container, then test_cases, then problem id. -/
def gdrive_folder_chain (container_name db_problem_id : String) : List String :=
  [container_name, "test_cases", db_problem_id]

/-- GoogleDriveStorageManager.upload_test_case input file name
(storage_manager.py:256). -/
def gdrive_input_filename (test_number : Nat) : String := pyFmt02d test_number

/-- GoogleDriveStorageManager.upload_test_case output file name
(storage_manager.py:265). -/
def gdrive_output_filename (test_number : Nat) : String :=
  pyFmt02d test_number ++ ".a"

/-! ## Test-case records and the migration upload loop -/

/-- A test-case record with the five fields that flow through the Redis
cache (the fields written by store_test_cases_in_redis, polygon_api.py
lines 852-858, and read back by get_test_cases_from_redis). -/
structure StoredTC where
  index : Nat
  input : String
  output : String
  description : String
  is_sample : Bool
deriving DecidableEq

/-- The upload loop of migrate_to_cloud_storage (polygon_api.py:740-747):
enumerate the resolved list starting at 1; upload a pair for every test
case with nonempty input and nonempty output under its enumeration
counter; skip (log only) the others. Returns the (test number, record)
pairs actually uploaded, in order. -/
def migrate_upload_loop : Nat → List StoredTC → List (Nat × StoredTC)
  | _, [] => []
  | idx, test :: rest =>
      if test.input ≠ "" ∧ test.output ≠ "" then
        (idx, test) :: migrate_upload_loop (idx + 1) rest
      else
        migrate_upload_loop (idx + 1) rest

/-- The pairs uploaded by migrate_to_cloud_storage for a resolved list
(enumerate starts at 1, polygon_api.py:740). -/
def migrate_uploads (test_cases : List StoredTC) : List (Nat × StoredTC) :=
  migrate_upload_loop 1 test_cases

/-- Object keys written by the upload loop, two per uploaded test case
(the S3/R2/Azure key shape; upload_test_case of the selected backend). -/
def migrate_storage_keys (db_problem_id : String) (test_cases : List StoredTC) :
    List String :=
  (migrate_uploads test_cases).flatMap fun p =>
    [s3_input_key db_problem_id p.1, s3_output_key db_problem_id p.1]

/-- empty_blob of a backend (e.g. storage_manager.py:74-95): delete every
object whose key starts with the problem prefix. Storage is modelled as
the list of keys present. -/
def empty_blob (keys : List String) (db_problem_id : String) : List String :=
  keys.filter fun k => ! strStartsWith ("test_cases/" ++ db_problem_id ++ "/") k

/-- Storage key set after the test-case part of migrate_to_cloud_storage
(polygon_api.py:737-748): purge the problem prefix, then upload the
filtered pairs. -/
def migrate_run_storage (keys : List String) (db_problem_id : String)
    (test_cases : List StoredTC) : List String :=
  empty_blob keys db_problem_id ++ migrate_storage_keys db_problem_id test_cases

/-! ## The Redis test-case cache (polygon_api.py:768-930) -/

/-- Payload of one Redis key as written by this application: the count
record (a decimal string) or one JSON-encoded test-case record. The JSON
round trip on these flat records is modelled by the injective
constructors. -/
inductive RVal where
  | cnt : Nat → RVal
  | tc : StoredTC → RVal
deriving DecidableEq

/-- Redis contents: key to (absolute expiry instant, payload). -/
def RedisState := String → Option (Nat × RVal)

/-- A Redis store with no keys. -/
def remptyState : RedisState := fun _ => none

/-- setex: write a payload with an absolute expiry instant. -/
def rset (s : RedisState) (k : String) (exp : Nat) (v : RVal) : RedisState :=
  fun k' => if k' = k then some (exp, v) else s k'

/-- get: a payload is visible strictly before its expiry instant. -/
def rget (s : RedisState) (now : Nat) (k : String) : Option RVal :=
  match s k with
  | some (exp, v) => if now < exp then some v else none
  | none => none

/-- The application key namespace for one problem
(polygon_api.py:844,901,964). -/
def cache_key_base (polygon_id : String) : String :=
  "polygon_migration_test_cases_" ++ polygon_id

/-- The count key (polygon_api.py:848,904). -/
def cache_count_key (polygon_id : String) : String :=
  cache_key_base polygon_id ++ "_count"

/-- The per-test key (polygon_api.py:859,916). -/
def cache_test_key (polygon_id : String) (idx : Nat) : String :=
  cache_key_base polygon_id ++ "_test_" ++ natToDec idx

/-- The test_case_data dict rebuilt before serialization
(polygon_api.py:852-858). On a record carrying all five fields every
.get call finds its key, so the rebuild projects the same five fields;
the idx default of the index field never fires. -/
def redis_test_case_data (t : StoredTC) (_idx : Nat) : StoredTC :=
  { index := t.index, input := t.input, output := t.output,
    description := t.description, is_sample := t.is_sample }

/-- The per-test write loop of store_test_cases_in_redis
(polygon_api.py:851-859), enumerating from 1. -/
def store_tests_loop : RedisState → String → Nat → Nat → List StoredTC → RedisState
  | s, _, _, _, [] => s
  | s, polygon_id, exp, idx, t :: rest =>
      store_tests_loop
        (rset s (cache_test_key polygon_id idx) exp (RVal.tc (redis_test_case_data t idx)))
        polygon_id exp (idx + 1) rest

/-- store_test_cases_in_redis (polygon_api.py:804-864): write the count
record, then one record per test case, all with the same expiry
`now + expiry_seconds` (expiry_seconds = int(expiry_hours * 3600)). -/
def store_test_cases_in_redis (s : RedisState) (polygon_id : String)
    (test_cases : List StoredTC) (expiry_seconds now : Nat) : RedisState :=
  store_tests_loop
    (rset s (cache_count_key polygon_id) (now + expiry_seconds)
      (RVal.cnt test_cases.length))
    polygon_id (now + expiry_seconds) 1 test_cases

/-- The per-test read loop of get_test_cases_from_redis
(polygon_api.py:915-923): for idx in range(1, count + 1), read the key;
a missing record is logged and omitted from the result. A count payload
under a test key would fail json-decoding into a usable record and never
arises from store; it is likewise omitted. -/
def read_tests_loop (s : RedisState) (now : Nat) (polygon_id : String) :
    Nat → Nat → List StoredTC
  | _, 0 => []
  | idx, remaining + 1 =>
      match rget s now (cache_test_key polygon_id idx) with
      | some (RVal.tc t) => t :: read_tests_loop s now polygon_id (idx + 1) remaining
      | _ => read_tests_loop s now polygon_id (idx + 1) remaining

/-- get_test_cases_from_redis (polygon_api.py:866-930): read the count
key; if absent (or expired) return a miss (none); if its payload is not
a decimal count, int() raises and the handler returns none; otherwise
read records 1..count, omitting missing ones. -/
def get_test_cases_from_redis (s : RedisState) (now : Nat) (polygon_id : String) :
    Option (List StoredTC) :=
  match rget s now (cache_count_key polygon_id) with
  | none => none
  | some (RVal.cnt c) => some (read_tests_loop s now polygon_id 1 c)
  | some (RVal.tc _) => none

/-- delete_problem_test_case_cache (polygon_api.py:768-802): delete every
key matching the glob pattern
oj_dev_with_redis_storage_test_cases_{db_problem_id}* — note the
namespace differs from cache_key_base and the id is the database id. -/
def delete_problem_test_case_cache (s : RedisState) (db_problem_id : Nat) :
    RedisState :=
  fun k =>
    if strStartsWith ("oj_dev_with_redis_storage_test_cases_" ++ natToDec db_problem_id) k
    then none else s k

/-- clear_test_cases_from_redis (polygon_api.py:932-976): delete every key
matching polygon_migration_test_cases_{polygon_id}*. -/
def clear_test_cases_from_redis (s : RedisState) (polygon_id : String) :
    RedisState :=
  fun k => if strStartsWith (cache_key_base polygon_id) k then none else s k

/-! ## Checker lookup (polygon_api.py get_custom_checker_info, 409-435) -/

/-- The descriptor returned for a custom checker. -/
structure CheckerInfo where
  name : String
  type : String
deriving DecidableEq

/-- get_custom_checker_info, as a function of the outcome of the
problem.checker API call (ok with the checker name string, or error when
the request raised). A falsy (empty) name, a name starting with the
standard-library marker, and any exception all yield none. -/
def get_custom_checker_info (api_response : Except String String) :
    Option CheckerInfo :=
  match api_response with
  | .error _ => none
  | .ok checker =>
      if checker ≠ "" ∧ strStartsWith "std::" checker = false then
        some { name := checker, type := "custom" }
      else none

/-! ## Checker pipeline (polygon_api.py upload_custom_checker_to_storage,
563-693). The two branches (CUSTOM_CHECKER_DIR set, or a temporary
directory) perform the same fetch / compile / upload sequence, so a
single function models both. External call outcomes are oracle fields. -/

/-- Outcomes of the external calls made by one checker-pipeline run. -/
structure CheckerRunEnv where
  /-- result of get_custom_checker_info (the checker name when custom). -/
  checker_info : Option String
  /-- result of fetch_custom_checker_file (none when all three candidate
  locations failed). -/
  source_fetch : Option String
  /-- result of compile_custom_checker (the binary path on success, none
  when the toolchain is missing, compilation fails, times out, or no
  binary is produced). -/
  compiled : Option String
  /-- whether reading the compiled binary back from disk succeeds. -/
  binary_read_ok : Bool
  /-- whether the storage_manager.upload_file call returns without
  raising. -/
  upload_ok : Bool
  /-- sys.platform.startswith of the win marker. -/
  is_windows : Bool
deriving DecidableEq

/-- Binary artifact name by platform (polygon_api.py:526-529, 633-636). -/
def checker_binary_filename (is_windows : Bool) : String :=
  if is_windows then "custom_checker.exe" else "custom_checker"

/-- upload_custom_checker_to_storage: returns the storage object paths it
uploads (empty when it returns with nothing uploaded). Every failure of
an external call is logged and swallowed, so the function always returns
normally. -/
def upload_custom_checker_to_storage (env : CheckerRunEnv)
    (problem_id_for_naming : String) : List String :=
  match env.checker_info with
  | none => []
  | some _ =>
      match env.source_fetch with
      | none => []
      | some _ =>
          match env.compiled with
          | none =>
              if env.upload_ok then
                ["test_cases/" ++ problem_id_for_naming ++ "/custom_checker.cpp"]
              else []
          | some _ =>
              if env.binary_read_ok then
                if env.upload_ok then
                  ["test_cases/" ++ problem_id_for_naming ++ "/" ++
                    checker_binary_filename env.is_windows]
                else []
              else []

/-! ## Orchestrator failure handling (problems/views.py index, 183-564) -/

/-- The method names defined on class PolygonAPI (problems/polygon_api.py).
Attribute lookup of any other name on a PolygonAPI instance raises
AttributeError. -/
def polygon_api_methods : List String :=
  ["__init__", "_generate_api_sig", "_make_request", "_make_plain_request",
   "download_and_extract_package", "get_problem_info", "get_statements",
   "get_test_script", "get_test_cases", "get_problem_files",
   "get_file_content", "get_all_test_cases", "get_custom_checker_info",
   "fetch_custom_checker_file", "compile_custom_checker",
   "upload_custom_checker_to_storage", "upload_custom_checker_to_azure",
   "migrate_to_cloud_storage", "migrate_to_azure_blob",
   "delete_problem_test_case_cache", "store_test_cases_in_redis",
   "get_test_cases_from_redis", "clear_test_cases_from_redis"]

/-- Python truthiness of an optional integer (None and 0 are falsy). -/
def pyTruthyOptNat : Option Nat → Bool
  | some n => n != 0
  | none => false

/-- Compensation effects the exception handler can perform. -/
inductive CompAction where
  | purge_storage : Nat → CompAction
  | invalidate_cache : String → CompAction
deriving DecidableEq

/-- The exception handler of the index view (views.py:557-564): when
azure_blob_uploaded and azure_blob_problem_id are truthy it calls
api.delete_azure_blob(azure_blob_problem_id); PolygonAPI defines no such
method, so that attribute lookup raises AttributeError and the handler
aborts before any compensation (the subsequent
clear_test_cases_from_redis call is not reached). Otherwise it proceeds
to api.clear_test_cases_from_redis(polygon_id). Returns the actions
performed and whether the handler body completed without raising. -/
def index_failure_handler (azure_blob_uploaded : Bool)
    (azure_blob_problem_id : Option Nat) (polygon_id : String) :
    List CompAction × Bool :=
  if azure_blob_uploaded && pyTruthyOptNat azure_blob_problem_id then
    if "delete_azure_blob" ∈ polygon_api_methods then
      ([CompAction.purge_storage (azure_blob_problem_id.getD 0),
        CompAction.invalidate_cache polygon_id], true)
    else ([], false)
  else ([CompAction.invalidate_cache polygon_id], true)

/-- Where an exception left the storage-migration branch of the try block
(views.py:184-555). -/
inductive StorageMigrationFailure where
  /-- the exception was raised inside migrate_to_cloud_storage, after
  uploads_done test-case pairs had already been uploaded. -/
  | during_migrate : (uploads_done : Nat) → StorageMigrationFailure
  /-- migrate_to_cloud_storage completed (the flag-setting lines 226-227
  ran with the database problem id) and a later step of the try block
  raised. -/
  | after_migrate : (db_problem_id : Nat) → StorageMigrationFailure
deriving DecidableEq

/-- Values of (azure_blob_uploaded, azure_blob_problem_id) when the
exception handler runs: both are initialized at views.py:186-187 and set
only at views.py:226-227, after migrate_to_cloud_storage has returned. -/
def azure_flags_at : StorageMigrationFailure → Bool × Option Nat
  | .during_migrate _ => (false, none)
  | .after_migrate i => (true, some i)

/-- The compensation the orchestrator actually performs for a failed
storage-migration run. -/
def compensation_on_failure (f : StorageMigrationFailure)
    (polygon_id : String) : List CompAction × Bool :=
  index_failure_handler (azure_flags_at f).1 (azure_flags_at f).2 polygon_id

/-! ## Dict-level view of test-case serialization (for the field sets) -/

/-- A JSON-able scalar value of the flat test-case dicts. -/
inductive JVal where
  | s : String → JVal
  | n : Nat → JVal
  | b : Bool → JVal
deriving DecidableEq

/-- Python dict .get with a default, on an insertion-ordered
key/value list. -/
def objGetD (o : List (String × JVal)) (k : String) (d : JVal) : JVal :=
  match o.lookup k with
  | some v => v
  | none => d

/-- The dict built for one test case by get_all_test_cases
(polygon_api.py:373-402), keys in insertion order: the four metadata
keys, then input and output. -/
def api_test_case_obj (index : Nat) (manual is_sample : Bool)
    (description input output : String) : List (String × JVal) :=
  [("index", JVal.n index), ("manual", JVal.b manual),
   ("is_sample", JVal.b is_sample), ("description", JVal.s description),
   ("input", JVal.s input), ("output", JVal.s output)]

/-- The test_case_data dict serialized to Redis by
store_test_cases_in_redis (polygon_api.py:852-858), keys in insertion
order, values taken from the incoming record by .get with defaults. -/
def redis_serialized_obj (test_case : List (String × JVal)) (idx : Nat) :
    List (String × JVal) :=
  [("index", objGetD test_case "index" (JVal.n idx)),
   ("input", objGetD test_case "input" (JVal.s "")),
   ("output", objGetD test_case "output" (JVal.s "")),
   ("description", objGetD test_case "description" (JVal.s "")),
   ("is_sample", objGetD test_case "is_sample" (JVal.b false))]

/-! ## SHA-512 (FIPS 180-4), as computed by hashlib.sha512

The signature construction of _generate_api_sig hashes a UTF-8 encoded
string with SHA-512 and emits the lowercase hex digest. 64-bit words are
Nat values reduced mod 2 ^ 64. -/

/-- UTF-8 encoding of one Unicode code point. -/
def utf8EncodeChar (c : Nat) : List Nat :=
  if c < 0x80 then [c]
  else if c < 0x800 then
    [0xC0 ||| (c >>> 6), 0x80 ||| (c &&& 0x3F)]
  else if c < 0x10000 then
    [0xE0 ||| (c >>> 12), 0x80 ||| ((c >>> 6) &&& 0x3F), 0x80 ||| (c &&& 0x3F)]
  else
    [0xF0 ||| (c >>> 18), 0x80 ||| ((c >>> 12) &&& 0x3F),
     0x80 ||| ((c >>> 6) &&& 0x3F), 0x80 ||| (c &&& 0x3F)]

/-- Byte sequence of a string under UTF-8 (Python s.encode of utf-8). -/
def strUtf8 (s : String) : List Nat :=
  s.data.flatMap fun c => utf8EncodeChar c.toNat

/-- Right rotation of a 64-bit word. -/
def rotr64 (x n : Nat) : Nat := ((x >>> n) ||| (x <<< (64 - n))) % 2 ^ 64

/-- Ch(x, y, z). -/
def sha512Ch (x y z : Nat) : Nat := (x &&& y) ^^^ ((x ^^^ (2 ^ 64 - 1)) &&& z)

/-- Maj(x, y, z). -/
def sha512Maj (x y z : Nat) : Nat := (x &&& y) ^^^ (x &&& z) ^^^ (y &&& z)

/-- Big sigma 0. -/
def sigBig0 (x : Nat) : Nat := rotr64 x 28 ^^^ rotr64 x 34 ^^^ rotr64 x 39

/-- Big sigma 1. -/
def sigBig1 (x : Nat) : Nat := rotr64 x 14 ^^^ rotr64 x 18 ^^^ rotr64 x 41

/-- Small sigma 0. -/
def sigSm0 (x : Nat) : Nat := rotr64 x 1 ^^^ rotr64 x 8 ^^^ (x >>> 7)

/-- Small sigma 1. -/
def sigSm1 (x : Nat) : Nat := rotr64 x 19 ^^^ rotr64 x 61 ^^^ (x >>> 6)

/-- The eight SHA-512 initial hash values. -/
def sha512H0 : List Nat :=
  [7640891576956012808, 13503953896175478587, 4354685564936845355,
   11912009170470909681, 5840696475078001361, 11170449401992604703,
   2270897969802886507, 6620516959819538809]

/-- The eighty SHA-512 round constants. -/
def sha512K : List Nat :=
  [4794697086780616226, 8158064640168781261, 13096744586834688815,
   16840607885511220156, 4131703408338449720, 6480981068601479193,
   10538285296894168987, 12329834152419229976, 15566598209576043074,
   1334009975649890238, 2608012711638119052, 6128411473006802146,
   8268148722764581231, 9286055187155687089, 11230858885718282805,
   13951009754708518548, 16472876342353939154, 17275323862435702243,
   1135362057144423861, 2597628984639134821, 3308224258029322869,
   5365058923640841347, 6679025012923562964, 8573033837759648693,
   10970295158949994411, 12119686244451234320, 12683024718118986047,
   13788192230050041572, 14330467153632333762, 15395433587784984357,
   489312712824947311, 1452737877330783856, 2861767655752347644,
   3322285676063803686, 5560940570517711597, 5996557281743188959,
   7280758554555802590, 8532644243296465576, 9350256976987008742,
   10552545826968843579, 11727347734174303076, 12113106623233404929,
   14000437183269869457, 14369950271660146224, 15101387698204529176,
   15463397548674623760, 17586052441742319658, 1182934255886127544,
   1847814050463011016, 2177327727835720531, 2830643537854262169,
   3796741975233480872, 4115178125766777443, 5681478168544905931,
   6601373596472566643, 7507060721942968483, 8399075790359081724,
   8693463985226723168, 9568029438360202098, 10144078919501101548,
   10430055236837252648, 11840083180663258601, 13761210420658862357,
   14299343276471374635, 14566680578165727644, 15097957966210449927,
   16922976911328602910, 17689382322260857208, 500013540394364858,
   748580250866718886, 1242879168328830382, 1977374033974150939,
   2944078676154940804, 3659926193048069267, 4368137639120453308,
   4836135668995329356, 5532061633213252278, 6448918945643986474,
   6902733635092675308, 7801388544844847127]

/-- Fixed-width big-endian byte rendering of a nonnegative integer. -/
def beBytes (numBytes : Nat) (x : Nat) : List Nat :=
  (List.range numBytes).map fun i => (x >>> (8 * (numBytes - 1 - i))) % 256

/-- Value of a big-endian byte sequence. -/
def beWord (bytes : List Nat) : Nat := bytes.foldl (fun a b => 256 * a + b) 0

/-- SHA-512 message padding: append 0x80, zero bytes, and the 128-bit
big-endian bit length, reaching a multiple of 128 bytes. -/
def sha512Pad (msg : List Nat) : List Nat :=
  let l := msg.length
  let zeros := (240 - (l + 1) % 128) % 128
  msg ++ [0x80] ++ List.replicate zeros 0 ++ beBytes 16 (8 * l)

/-- The sixteen 64-bit message words of one 128-byte block. -/
def blockWords (block : List Nat) : List Nat :=
  (List.range 16).map fun i => beWord ((block.drop (8 * i)).take 8)

/-- Extend the message schedule; the accumulator holds the schedule so
far, newest word first. -/
def extendSchedule : Nat → List Nat → List Nat
  | 0, acc => acc
  | steps + 1, acc =>
      extendSchedule steps
        (((sigSm1 (acc.getD 1 0) + acc.getD 6 0 + sigSm0 (acc.getD 14 0) +
          acc.getD 15 0) % 2 ^ 64) :: acc)

/-- The eighty scheduled words W0..W79 of one block. -/
def sha512Schedule (ws : List Nat) : List Nat :=
  (extendSchedule 64 ws.reverse).reverse

/-- One round of the SHA-512 compression function on the eight-word
working state. -/
def sha512Round (st : List Nat) (k w : Nat) : List Nat :=
  match st with
  | [a, b, c, d, e, f, g, h] =>
      let t1 := (h + sigBig1 e + sha512Ch e f g + k + w) % 2 ^ 64
      let t2 := (sigBig0 a + sha512Maj a b c) % 2 ^ 64
      [(t1 + t2) % 2 ^ 64, a, b, c, (d + t1) % 2 ^ 64, e, f, g]
  | other => other

/-- Compress one 128-byte block into the running eight-word hash state. -/
def compressBlock (st : List Nat) (block : List Nat) : List Nat :=
  let ws := sha512Schedule (blockWords block)
  let fin := (sha512K.zip ws).foldl (fun s kw => sha512Round s kw.1 kw.2) st
  (st.zip fin).map fun p => (p.1 + p.2) % 2 ^ 64

/-- SHA-512 digest (64 bytes) of a byte sequence. -/
def sha512Bytes (msg : List Nat) : List Nat :=
  let padded := sha512Pad msg
  let finalState :=
    (List.range (padded.length / 128)).foldl
      (fun st i => compressBlock st ((padded.drop (128 * i)).take 128)) sha512H0
  finalState.flatMap fun wv => beBytes 8 wv

/-- Lowercase hex character of a value below 16. -/
def hexCharLower (d : Nat) : Char :=
  Char.ofNat (if d < 10 then 48 + d else 87 + d)

/-- Lowercase hex string of a byte sequence (hashlib hexdigest). -/
def hexdigest (bytes : List Nat) : String :=
  ⟨bytes.flatMap fun b => [hexCharLower (b / 16), hexCharLower (b % 16)]⟩

/-- hashlib.sha512(s.encode of utf-8).hexdigest(). -/
def sha512hex (s : String) : String := hexdigest (sha512Bytes (strUtf8 s))

/-! ## URL encoding and the signature (polygon_api.py:35-68) -/

/-- Bytes urllib quote_plus leaves unescaped: ASCII letters, digits, and
the four always-safe marks. -/
def quoteSafeByte (b : Nat) : Bool :=
  decide ((48 ≤ b ∧ b ≤ 57) ∨ (65 ≤ b ∧ b ≤ 90) ∨ (97 ≤ b ∧ b ≤ 122) ∨
    b = 95 ∨ b = 46 ∨ b = 45 ∨ b = 126)

/-- Uppercase hex character of a value below 16. -/
def hexCharUpper (d : Nat) : Char :=
  Char.ofNat (if d < 10 then 48 + d else 55 + d)

/-- urllib.parse.quote_plus: encode to UTF-8; keep safe bytes, map space
to plus, percent-encode the rest with uppercase hex. -/
def quote_plus (s : String) : String :=
  ⟨(strUtf8 s).flatMap fun b =>
    if b = 32 then ['+']
    else if quoteSafeByte b then [Char.ofNat b]
    else ['%', hexCharUpper (b / 16), hexCharUpper (b % 16)]⟩

/-- urllib.parse.urlencode on an ordered key/value list: quote_plus both
sides of each pair, join as k=v with ampersands. -/
def urlencode (params : List (String × String)) : String :=
  String.intercalate "&" (params.map fun kv => quote_plus kv.1 ++ "=" ++ quote_plus kv.2)

/-- Python dict item assignment d[k] = v on an insertion-ordered
key/value list: replace the value in place when the key exists, append
otherwise. -/
def pySetItem (params : List (String × String)) (k v : String) :
    List (String × String) :=
  if params.any fun p => p.1 = k then
    params.map fun p => if p.1 = k then (k, v) else p
  else params ++ [(k, v)]

/-- Lexicographic comparison of character lists by code point, the order
Python uses on strings. -/
def strLeB : List Char → List Char → Bool
  | [], _ => true
  | _ :: _, [] => false
  | a :: as, b :: bs =>
      if a = b then strLeB as bs else decide (a.toNat < b.toNat)

/-- Key order used by sorted(params.items()): dict keys are unique, so
the tuple comparison never reaches the values and sorts by key. -/
def paramKeyLe (a b : String × String) : Prop := strLeB a.1.data b.1.data = true

instance : DecidableRel paramKeyLe := fun _ _ => Bool.decEq _ _

/-- sorted(...) is a stable comparison sort; with the by-key order and
unique keys its output is the unique key-sorted rearrangement, modelled
by insertion sort. -/
def pySorted (params : List (String × String)) : List (String × String) :=
  List.insertionSort paramKeyLe params

/-- Embedding of _generate_api_sig (polygon_api.py:35-68), with the ambient inputs of
the Python method passed explicitly: the API key and secret from
settings, the current Unix time, and the six-character random nonce.
Adds apiKey and time to the params, sorts lexicographically, URL-encodes,
hashes nonce/method?params#secret with SHA-512, and returns
(nonce ++ hex digest, time). -/
def generate_api_sig (api_key api_secret : String) (now : Nat) (nonce : String)
    (method_name : String) (params : List (String × String)) : String × Nat :=
  let params1 := pySetItem params "apiKey" api_key
  let params2 := pySetItem params1 "time" (natToDec now)
  let param_str := urlencode (pySorted params2)
  let to_hash := nonce ++ "/" ++ method_name ++ "?" ++ param_str ++ "#" ++ api_secret
  (nonce ++ sha512hex to_hash, now)

/-! ## Concrete scenario data used by the claims -/

/-- The three-case scenario list of the specification: case 2 has an
empty input. -/
def c5SampleCases : List StoredTC :=
  [{ index := 1, input := "5\n", output := "10\n", description := "", is_sample := false },
   { index := 2, input := "", output := "3\n", description := "", is_sample := false },
   { index := 3, input := "6\n", output := "12\n", description := "", is_sample := false }]

/-- A cached record with remote index 1. -/
def tcIdx1 : StoredTC :=
  { index := 1, input := "a\n", output := "b\n", description := "", is_sample := false }

/-- A cached record with remote index 3. -/
def tcIdx3 : StoredTC :=
  { index := 3, input := "c\n", output := "d\n", description := "", is_sample := false }

/-- A cache state for polygon id P holding a count of 3 whose second
record is missing (e.g. evicted individually), with the surviving
records unexpired until instant 1800. -/
def c8CacheState : RedisState :=
  rset (rset (rset remptyState (cache_count_key "P") 1800 (RVal.cnt 3))
      (cache_test_key "P" 1) 1800 (RVal.tc tcIdx1))
    (cache_test_key "P" 3) 1800 (RVal.tc tcIdx3)

/-- A checker run on a custom checker whose source fetch failed at all
three candidate locations. -/
def c3FailEnv : CheckerRunEnv :=
  { checker_info := some "chk.cpp", source_fetch := none, compiled := none,
    binary_read_ok := false, upload_ok := true, is_windows := false }

/-- A checker run on a custom checker where compilation is unavailable
and the source upload succeeds. -/
def c3SrcEnv : CheckerRunEnv :=
  { checker_info := some "chk.cpp", source_fetch := some "code", compiled := none,
    binary_read_ok := false, upload_ok := true, is_windows := false }

/-- A checker run where get_custom_checker_info yielded none (standard
checker, or a failed lookup). -/
def c10NoneEnv : CheckerRunEnv :=
  { checker_info := none, source_fetch := none, compiled := none,
    binary_read_ok := false, upload_ok := false, is_windows := false }

/-! ## Theorems: decimal rendering -/

theorem decValue_append_digit (l : List Char) (c : Char) :
    decValue (l ++ [c]) = 10 * decValue l + decDigitVal c := by
  unfold decValue
  rw [List.foldl_append]
  rfl

theorem decDigitVal_decDigitChar {d : Nat} (h : d < 10) :
    decDigitVal (decDigitChar d) = d := by
  have h10 : ∀ e, e < 10 → decDigitVal (decDigitChar e) = e := by decide
  exact h10 d h

theorem decValue_decDigitsAux :
    ∀ fuel n, n ≤ fuel → decValue (decDigitsAux fuel n) = n := by
  intro fuel
  induction fuel with
  | zero =>
      intro n hn
      interval_cases n
      rfl
  | succ f ih =>
      intro n hn
      match n with
      | 0 => rfl
      | m + 1 =>
          rw [decDigitsAux, decValue_append_digit,
            decDigitVal_decDigitChar (Nat.mod_lt _ (by norm_num)),
            ih ((m + 1) / 10)
              (Nat.le_of_lt_succ (Nat.lt_of_lt_of_le
                (Nat.div_lt_self (Nat.succ_pos m) (by norm_num)) hn))]
          exact Nat.div_add_mod (m + 1) 10

theorem decValue_natToDec (k : Nat) : decValue (natToDec k).data = k := by
  unfold natToDec
  by_cases hk : k = 0
  · subst hk; rfl
  · rw [if_neg hk]
    exact decValue_decDigitsAux k k le_rfl

theorem natToDec_inj (m n : Nat) (h : natToDec m = natToDec n) : m = n := by
  have h2 := congrArg (fun s => decValue s.data) h
  simpa [decValue_natToDec] using h2

theorem string_append_left_cancel {p x y : String} (h : p ++ x = p ++ y) :
    x = y := by
  apply String.ext
  have h2 := congrArg String.data h
  rw [String.data_append, String.data_append] at h2
  exact List.append_cancel_left h2

theorem pyFmt02d_length_two :
    ∀ n, n < 100 → 1 ≤ n → (pyFmt02d n).length = 2 := by decide

/-- C4: for every backend and every test number 1 ≤ n ≤ 99, the input
object key is test_cases/(problem key)/NN with NN the decimal rendering
of n zero-padded to exactly two digits (1..9 give 01..09, 42 gives 42),
and the output object key is the input key with .a appended. -/
theorem c4_zero_padded_test_keys (pid base container : String) (n : Nat)
    (h1 : 1 ≤ n) (h2 : n ≤ 99) :
    (pyFmt02d n).length = 2
    ∧ s3_input_key pid n = "test_cases/" ++ pid ++ "/" ++ pyFmt02d n
    ∧ s3_output_key pid n = s3_input_key pid n ++ ".a"
    ∧ r2_input_key pid n = "test_cases/" ++ pid ++ "/" ++ pyFmt02d n
    ∧ r2_output_key pid n = r2_input_key pid n ++ ".a"
    ∧ azure_input_blob_name pid n = "test_cases/" ++ pid ++ "/" ++ pyFmt02d n
    ∧ azure_output_blob_name pid n = azure_input_blob_name pid n ++ ".a"
    ∧ local_input_file base container pid n
        = base ++ "/" ++ container ++ "/" ++ ("test_cases/" ++ pid ++ "/" ++ pyFmt02d n)
    ∧ local_output_file base container pid n
        = local_input_file base container pid n ++ ".a"
    ∧ gdrive_folder_chain container pid = [container, "test_cases", pid]
    ∧ gdrive_input_filename n = pyFmt02d n
    ∧ gdrive_output_filename n = gdrive_input_filename n ++ ".a"
    ∧ (n < 10 → pyFmt02d n = "0" ++ natToDec n)
    ∧ pyFmt02d 1 = "01" ∧ pyFmt02d 9 = "09" ∧ pyFmt02d 42 = "42" := by
  refine ⟨pyFmt02d_length_two n (by omega) h1, rfl, rfl, rfl, rfl, rfl, rfl,
    ?_, rfl, rfl, rfl, rfl, ?_, rfl, rfl, rfl⟩
  · apply String.ext
    simp only [local_input_file, String.data_append, List.append_assoc]
    rfl
  · intro hlt
    unfold pyFmt02d
    rw [if_pos hlt]

/-- C4 witness at n = 7. -/
theorem c4_zero_padded_test_keys_witness :
    (pyFmt02d 7).length = 2
    ∧ s3_input_key "55" 7 = "test_cases/" ++ "55" ++ "/" ++ pyFmt02d 7
    ∧ s3_output_key "55" 7 = s3_input_key "55" 7 ++ ".a"
    ∧ r2_input_key "55" 7 = "test_cases/" ++ "55" ++ "/" ++ pyFmt02d 7
    ∧ r2_output_key "55" 7 = r2_input_key "55" 7 ++ ".a"
    ∧ azure_input_blob_name "55" 7 = "test_cases/" ++ "55" ++ "/" ++ pyFmt02d 7
    ∧ azure_output_blob_name "55" 7 = azure_input_blob_name "55" 7 ++ ".a"
    ∧ local_input_file "base" "bucket" "55" 7
        = "base" ++ "/" ++ "bucket" ++ "/" ++ ("test_cases/" ++ "55" ++ "/" ++ pyFmt02d 7)
    ∧ local_output_file "base" "bucket" "55" 7
        = local_input_file "base" "bucket" "55" 7 ++ ".a"
    ∧ gdrive_folder_chain "bucket" "55" = ["bucket", "test_cases", "55"]
    ∧ gdrive_input_filename 7 = pyFmt02d 7
    ∧ gdrive_output_filename 7 = gdrive_input_filename 7 ++ ".a"
    ∧ (7 < 10 → pyFmt02d 7 = "0" ++ natToDec 7)
    ∧ pyFmt02d 1 = "01" ∧ pyFmt02d 9 = "09" ∧ pyFmt02d 42 = "42" :=
  c4_zero_padded_test_keys "55" "base" "bucket" 7 (by decide) (by decide)

/-! ## Theorems: the migration upload loop (C5, C8) -/

theorem migrate_upload_loop_eq_filter (l : List StoredTC) :
    ∀ k, migrate_upload_loop k l
      = (List.enumFrom k l).filter
          fun p => decide (p.2.input ≠ "" ∧ p.2.output ≠ "") := by
  induction l with
  | nil => intro k; rfl
  | cons t rest ih =>
      intro k
      rw [List.enumFrom, List.filter, migrate_upload_loop]
      by_cases h : t.input ≠ "" ∧ t.output ≠ ""
      · rw [if_pos h, ih (k + 1)]
        simp [h]
      · rw [if_neg h, ih (k + 1)]
        simp [h]

/-- C5: migrate_to_cloud_storage uploads exactly the enumerated test
cases with both sides nonempty; the others are skipped without aborting;
on the scenario list only test numbers 1 and 3 are uploaded, and after
the purge-then-upload run exactly their four objects carry the problem
prefix. -/
theorem c5_skip_empty_test_cases :
    (∀ l : List StoredTC, migrate_uploads l
        = (List.enumFrom 1 l).filter
            fun p => decide (p.2.input ≠ "" ∧ p.2.output ≠ ""))
    ∧ (migrate_uploads c5SampleCases).map Prod.fst = [1, 3]
    ∧ (∀ keys, (migrate_run_storage keys "P" c5SampleCases).filter
          (fun k => strStartsWith "test_cases/P/" k)
        = ["test_cases/P/01", "test_cases/P/01.a",
           "test_cases/P/03", "test_cases/P/03.a"]) := by
  refine ⟨fun l => migrate_upload_loop_eq_filter l 1, by decide, ?_⟩
  intro keys
  unfold migrate_run_storage empty_blob
  rw [List.filter_append, List.filter_filter]
  have hz : (keys.filter fun a =>
      strStartsWith "test_cases/P/" a
        && !strStartsWith ("test_cases/" ++ "P" ++ "/") a) = [] := by
    have hpt : ∀ a : String,
        (strStartsWith "test_cases/P/" a
          && !strStartsWith ("test_cases/" ++ "P" ++ "/") a) = false := by
      intro a
      have e : strStartsWith ("test_cases/" ++ "P" ++ "/") a
          = strStartsWith "test_cases/P/" a := rfl
      rw [e]
      cases strStartsWith "test_cases/P/" a <;> rfl
    simp [hpt]
  rw [hz]
  decide

/-- C8: the storage test number of an uploaded case is its 1-based
position in the resolved list, not its own index field; a cache fetch
that omits a missing record shortens the list, so a later record lands
under a number different from its remote index (the concrete state has
count 3 with record 2 missing, and the record with remote index 3 is
uploaded as test number 2). -/
theorem c8_numbers_follow_position :
    (∀ (l : List StoredTC) (p : Nat) (t : StoredTC),
        (p, t) ∈ migrate_uploads l → l.get? (p - 1) = some t)
    ∧ get_test_cases_from_redis c8CacheState 0 "P" = some [tcIdx1, tcIdx3]
    ∧ migrate_uploads [tcIdx1, tcIdx3] = [(1, tcIdx1), (2, tcIdx3)]
    ∧ tcIdx3.index = 3 := by
  refine ⟨?_, by decide, by decide, rfl⟩
  intro l p t hmem
  rw [migrate_uploads, migrate_upload_loop_eq_filter l 1] at hmem
  have hmem2 := (List.mem_filter.mp hmem).1
  obtain ⟨hp1, hp2, hp3⟩ := List.mem_enumFrom hmem2
  have hlt : p - 1 < l.length := by omega
  rw [List.get?_eq_getElem? l (p - 1), List.getElem?_eq_getElem hlt]
  exact congrArg some hp3.symm

/-- C8 witness: position 2 of the shortened list holds the record with
remote index 3. -/
theorem c8_numbers_follow_position_witness :
    [tcIdx1, tcIdx3].get? (2 - 1) = some tcIdx3 :=
  c8_numbers_follow_position.1 [tcIdx1, tcIdx3] 2 tcIdx3 (by decide)

/-! ## Theorems: the Redis cache (C6, C2) -/

theorem cache_test_key_inj {pid : String} {i j : Nat}
    (h : cache_test_key pid i = cache_test_key pid j) : i = j := by
  unfold cache_test_key at h
  exact natToDec_inj i j (string_append_left_cancel h)

theorem cache_count_key_ne_test_key (pid : String) (i : Nat) :
    cache_count_key pid ≠ cache_test_key pid i := by
  intro h
  unfold cache_count_key cache_test_key at h
  rw [String.append_assoc] at h
  have h2 := congrArg String.data (string_append_left_cancel h)
  rw [String.data_append] at h2
  have h4 : ('_' : Char) :: 'c' :: 'o' :: 'u' :: 'n' :: 't' :: []
      = '_' :: 't' :: 'e' :: 's' :: 't' :: '_' :: (natToDec i).data := h2
  injection h4 with _ h5
  injection h5 with h6 h7
  exact absurd h6 (by decide)

theorem store_tests_loop_get_other (pid : String) (exp : Nat) :
    ∀ (l : List StoredTC) (s : RedisState) (start : Nat) (k : String),
      (∀ j, start ≤ j → j < start + l.length → k ≠ cache_test_key pid j) →
      store_tests_loop s pid exp start l k = s k := by
  intro l
  induction l with
  | nil => intro s start k _; rfl
  | cons t rest ih =>
      intro s start k hk
      show store_tests_loop
        (rset s (cache_test_key pid start) exp (RVal.tc (redis_test_case_data t start)))
        pid exp (start + 1) rest k = s k
      rw [ih _ (start + 1) k
        (fun j hj1 hj2 => hk j (by omega) (by simp only [List.length_cons]; omega))]
      unfold rset
      rw [if_neg (hk start le_rfl (by simp only [List.length_cons]; omega))]

theorem read_tests_loop_store (pid : String) (exp now : Nat) (hnow : now < exp) :
    ∀ (l : List StoredTC) (s : RedisState) (start : Nat),
      read_tests_loop (store_tests_loop s pid exp start l) now pid start l.length = l := by
  intro l
  induction l with
  | nil => intro s start; rfl
  | cons t rest ih =>
      intro s start
      show read_tests_loop (store_tests_loop
          (rset s (cache_test_key pid start) exp (RVal.tc (redis_test_case_data t start)))
          pid exp (start + 1) rest) now pid start (rest.length + 1) = t :: rest
      have hget : rget (store_tests_loop
          (rset s (cache_test_key pid start) exp (RVal.tc (redis_test_case_data t start)))
          pid exp (start + 1) rest) now (cache_test_key pid start)
          = some (RVal.tc (redis_test_case_data t start)) := by
        unfold rget
        rw [store_tests_loop_get_other pid exp rest _ (start + 1) _
          (fun j hj1 _ heq => by have := cache_test_key_inj heq; omega)]
        unfold rset
        rw [if_pos rfl]
        show (if now < exp then some (RVal.tc (redis_test_case_data t start)) else none)
          = some (RVal.tc (redis_test_case_data t start))
        rw [if_pos hnow]
      rw [read_tests_loop, hget]
      exact congrArg (fun r => t :: r) (ih _ (start + 1))

theorem store_count_lookup (s : RedisState) (pid : String) (l : List StoredTC)
    (ttl now : Nat) :
    store_test_cases_in_redis s pid l ttl now (cache_count_key pid)
      = some (now + ttl, RVal.cnt l.length) := by
  unfold store_test_cases_in_redis
  rw [store_tests_loop_get_other pid _ l _ 1 _
    (fun j _ _ => cache_count_key_ne_test_key pid j)]
  unfold rset
  rw [if_pos rfl]

/-- C6: storing a test-case list and fetching it while the TTL has not
elapsed (the cache unmodified in between) returns exactly the stored
records; once the TTL has elapsed the fetch is a miss. -/
theorem c6_cache_round_trip (s : RedisState) (pid : String)
    (cases : List StoredTC) (ttl now t : Nat) :
    (t < now + ttl →
      get_test_cases_from_redis (store_test_cases_in_redis s pid cases ttl now) t pid
        = some cases)
    ∧ (now + ttl ≤ t →
      get_test_cases_from_redis (store_test_cases_in_redis s pid cases ttl now) t pid
        = none) := by
  constructor
  · intro ht
    have h1 : rget (store_test_cases_in_redis s pid cases ttl now) t
        (cache_count_key pid) = some (RVal.cnt cases.length) := by
      unfold rget
      rw [store_count_lookup]
      show (if t < now + ttl then some (RVal.cnt cases.length) else none)
        = some (RVal.cnt cases.length)
      rw [if_pos ht]
    unfold get_test_cases_from_redis
    rw [h1]
    show some (read_tests_loop (store_test_cases_in_redis s pid cases ttl now)
      t pid 1 cases.length) = some cases
    unfold store_test_cases_in_redis
    exact congrArg some (read_tests_loop_store pid _ t ht cases _ 1)
  · intro ht
    have h1 : rget (store_test_cases_in_redis s pid cases ttl now) t
        (cache_count_key pid) = none := by
      unfold rget
      rw [store_count_lookup]
      show (if t < now + ttl then some (RVal.cnt cases.length) else none) = none
      rw [if_neg (by omega)]
    unfold get_test_cases_from_redis
    rw [h1]

/-- C6 witness: store one record at instant 0 with a 1800 second TTL;
fetching at instant 10 returns it, fetching at instant 1800 misses. -/
theorem c6_cache_round_trip_witness :
    get_test_cases_from_redis
        (store_test_cases_in_redis remptyState "p77" [tcIdx1] 1800 0) 10 "p77"
      = some [tcIdx1]
    ∧ get_test_cases_from_redis
        (store_test_cases_in_redis remptyState "p77" [tcIdx1] 1800 0) 1800 "p77"
      = none :=
  ⟨(c6_cache_round_trip remptyState "p77" [tcIdx1] 1800 0 10).1 (by norm_num),
   (c6_cache_round_trip remptyState "p77" [tcIdx1] 1800 0 1800).2 (by norm_num)⟩

/-- C2 (code evaluation): the invalidation call made before a storage
migration deletes only keys under the oj_dev_with_redis_storage
namespace keyed by the database id, which never touches a key of the
polygon_migration_test_cases namespace this application reads and
writes; consequently a pre-existing unexpired cache entry survives and
migrate_to_cloud_storage resolves the stale cached list instead of a
fresh API fetch. -/
theorem c2_invalidation_misses_cache :
    (∀ (s : RedisState) (db_id : Nat) (suffix : String),
        delete_problem_test_case_cache s db_id
            ("polygon_migration_test_cases_" ++ suffix)
          = s ("polygon_migration_test_cases_" ++ suffix))
    ∧ get_test_cases_from_redis
        (delete_problem_test_case_cache
          (store_test_cases_in_redis remptyState "P1" [tcIdx1] 1800 0) 7) 10 "P1"
      = some [tcIdx1] := by
  constructor
  · intro s db_id suffix
    rfl
  · decide

/-! ## Theorems: orchestrator failure handling (C1) -/

/-- C1 (code evaluation): when a storage-migration run fails while
migrate_to_cloud_storage is still executing — in particular after one or
more objects were already uploaded — azure_blob_uploaded is still False,
so the handler performs only the cache invalidation and never attempts a
storage purge; and when the failure comes after migrate_to_cloud_storage
succeeded, the handler calls the nonexistent method delete_azure_blob,
raising AttributeError before any purge or cache invalidation. -/
theorem c1_no_compensating_purge (polygon_id : String) :
    (∀ uploads_done : Nat,
        compensation_on_failure
            (StorageMigrationFailure.during_migrate uploads_done) polygon_id
          = ([CompAction.invalidate_cache polygon_id], true))
    ∧ (∀ uploads_done db_id : Nat,
        CompAction.purge_storage db_id ∉
          (compensation_on_failure
            (StorageMigrationFailure.during_migrate uploads_done) polygon_id).1)
    ∧ (∀ i : Nat,
        compensation_on_failure
            (StorageMigrationFailure.after_migrate (i + 1)) polygon_id
          = ([], false)) := by
  refine ⟨fun _ => rfl, fun _ db_id => ?_, fun i => ?_⟩
  · intro hmem
    have hmem2 : CompAction.purge_storage db_id
        ∈ [CompAction.invalidate_cache polygon_id] := hmem
    rw [List.mem_singleton] at hmem2
    exact CompAction.noConfusion hmem2
  · show index_failure_handler true (some (i + 1)) polygon_id = ([], false)
    unfold index_failure_handler
    rw [if_pos (by simp [pyTruthyOptNat]), if_neg (by decide)]

/-! ## Theorems: checker exclusivity (C3) -/

/-- C3 counterexample: on a custom checker whose source fetch fails at
all three locations, the run uploads nothing, so neither
test_cases/7/custom_checker nor test_cases/7/custom_checker.cpp exists
afterwards — the claimed exactly-one property fails. -/
theorem c3_exclusivity_fails_on_fetch_failure :
    ¬ (("test_cases/7/custom_checker"
          ∈ upload_custom_checker_to_storage c3FailEnv "7"
        ∧ "test_cases/7/custom_checker.cpp"
          ∉ upload_custom_checker_to_storage c3FailEnv "7")
      ∨ ("test_cases/7/custom_checker.cpp"
          ∈ upload_custom_checker_to_storage c3FailEnv "7"
        ∧ "test_cases/7/custom_checker"
          ∉ upload_custom_checker_to_storage c3FailEnv "7")) := by decide

theorem checker_bin_ne_src (pid : String) :
    "test_cases/" ++ pid ++ "/custom_checker"
      ≠ "test_cases/" ++ pid ++ "/custom_checker.cpp" := by
  intro h
  exact absurd (string_append_left_cancel h) (by decide)

theorem bin_path_eq (pid : String) :
    "test_cases/" ++ pid ++ "/" ++ checker_binary_filename false
      = "test_cases/" ++ pid ++ "/custom_checker" := by
  apply String.ext
  simp only [String.data_append, List.append_assoc]
  rfl

/-- C3 amended: after a run on a custom checker (POSIX target), at most
one of the binary object and the source object is uploaded; exactly one
is uploaded when the source fetch succeeds, the chosen upload call
succeeds, and (in the compiled case) the binary can be read back; and
when the source fetch fails at all three locations, the binary read
fails, or the upload call raises, neither object is uploaded — the
pipeline function is total, so the run returns normally and continues. -/
theorem c3_checker_exclusive_amended (env : CheckerRunEnv) (pid : String)
    (hcustom : env.checker_info.isSome = true) (hwin : env.is_windows = false) :
    ¬ ("test_cases/" ++ pid ++ "/custom_checker"
          ∈ upload_custom_checker_to_storage env pid
        ∧ "test_cases/" ++ pid ++ "/custom_checker.cpp"
          ∈ upload_custom_checker_to_storage env pid)
    ∧ ((env.source_fetch.isSome = true ∧ env.upload_ok = true
        ∧ (env.compiled.isSome = true → env.binary_read_ok = true)) →
        (("test_cases/" ++ pid ++ "/custom_checker"
            ∈ upload_custom_checker_to_storage env pid
          ∧ "test_cases/" ++ pid ++ "/custom_checker.cpp"
            ∉ upload_custom_checker_to_storage env pid)
        ∨ ("test_cases/" ++ pid ++ "/custom_checker.cpp"
            ∈ upload_custom_checker_to_storage env pid
          ∧ "test_cases/" ++ pid ++ "/custom_checker"
            ∉ upload_custom_checker_to_storage env pid)))
    ∧ ((env.source_fetch = none
        ∨ (env.compiled.isSome = true ∧ env.binary_read_ok = false)
        ∨ env.upload_ok = false) →
        upload_custom_checker_to_storage env pid = []) := by
  obtain ⟨ci, sf, cp, br, uo, iw⟩ := env
  simp only at hcustom hwin ⊢
  subst hwin
  cases ci with
  | none => exact absurd hcustom (by decide)
  | some cname =>
      have hres : upload_custom_checker_to_storage
            ⟨some cname, sf, cp, br, uo, false⟩ pid = []
          ∨ upload_custom_checker_to_storage
              ⟨some cname, sf, cp, br, uo, false⟩ pid
            = ["test_cases/" ++ pid ++ "/custom_checker.cpp"]
          ∨ upload_custom_checker_to_storage
              ⟨some cname, sf, cp, br, uo, false⟩ pid
            = ["test_cases/" ++ pid ++ "/custom_checker"] := by
        cases sf with
        | none => exact Or.inl rfl
        | some s0 =>
            cases cp with
            | none =>
                cases uo with
                | false => exact Or.inl rfl
                | true => exact Or.inr (Or.inl rfl)
            | some bp =>
                cases br with
                | false => exact Or.inl rfl
                | true =>
                    cases uo with
                    | false => exact Or.inl rfl
                    | true =>
                        refine Or.inr (Or.inr ?_)
                        show ["test_cases/" ++ pid ++ "/" ++ checker_binary_filename false]
                          = ["test_cases/" ++ pid ++ "/custom_checker"]
                        rw [bin_path_eq]
      refine ⟨?_, ?_, ?_⟩
      · rcases hres with h0 | h1 | h2
        · rw [h0]
          rintro ⟨hb, -⟩
          simp at hb
        · rw [h1]
          rintro ⟨hb, -⟩
          rw [List.mem_singleton] at hb
          exact checker_bin_ne_src pid hb
        · rw [h2]
          rintro ⟨-, hs⟩
          rw [List.mem_singleton] at hs
          exact checker_bin_ne_src pid hs.symm
      · rintro ⟨hsf, huo, hbr⟩
        cases sf with
        | none => exact absurd hsf (by decide)
        | some s0 =>
            cases cp with
            | none =>
                subst huo
                refine Or.inr ⟨List.mem_singleton.mpr rfl, ?_⟩
                intro hbin
                have hbin2 : "test_cases/" ++ pid ++ "/custom_checker"
                    ∈ ["test_cases/" ++ pid ++ "/custom_checker.cpp"] := hbin
                rw [List.mem_singleton] at hbin2
                exact checker_bin_ne_src pid hbin2
            | some bp =>
                have hbr2 : br = true := hbr rfl
                subst hbr2
                subst huo
                have he : upload_custom_checker_to_storage
                    ⟨some cname, some s0, some bp, true, true, false⟩ pid
                    = ["test_cases/" ++ pid ++ "/custom_checker"] := by
                  show ["test_cases/" ++ pid ++ "/" ++ checker_binary_filename false]
                    = ["test_cases/" ++ pid ++ "/custom_checker"]
                  rw [bin_path_eq]
                rw [he]
                refine Or.inl ⟨List.mem_singleton.mpr rfl, ?_⟩
                intro hsrc
                rw [List.mem_singleton] at hsrc
                exact checker_bin_ne_src pid hsrc.symm
      · rintro (hsf | ⟨hcp, hbr⟩ | huo)
        · subst hsf
          rfl
        · subst hbr
          cases sf with
          | none => rfl
          | some s0 =>
              cases cp with
              | none => exact absurd hcp (by decide)
              | some bp => rfl
        · subst huo
          cases sf with
          | none => rfl
          | some s0 =>
              cases cp with
              | none => rfl
              | some bp => cases br <;> rfl

/-- C3 witness: custom checker, source fetched, compilation unavailable,
upload succeeds — exactly the source object is uploaded. -/
theorem c3_checker_exclusive_amended_witness :
    "test_cases/7/custom_checker.cpp"
      ∈ upload_custom_checker_to_storage c3SrcEnv "7"
    ∧ "test_cases/7/custom_checker"
      ∉ upload_custom_checker_to_storage c3SrcEnv "7" := by
  have h := (c3_checker_exclusive_amended c3SrcEnv "7" (by decide) rfl).2.1
    ⟨by decide, rfl, by decide⟩
  rcases h with ⟨hbin, -⟩ | hr
  · exact absurd hbin (by decide)
  · exact hr

/-! ## Theorems: silent checker lookup failure (C10) -/

/-- C10: get_custom_checker_info returns none both for a standard
checker name and whenever the underlying call raises, making a failed
lookup indistinguishable from the absence of a custom checker; with a
none descriptor the checker pipeline uploads nothing and returns
normally, so the run continues. -/
theorem c10_checker_lookup_silent (e s : String)
    (hs : strStartsWith "std::" s = true) (pid : String) :
    get_custom_checker_info (Except.error e) = none
    ∧ get_custom_checker_info (Except.ok s) = none
    ∧ get_custom_checker_info (Except.error e) = get_custom_checker_info (Except.ok s)
    ∧ upload_custom_checker_to_storage c10NoneEnv pid = [] := by
  have h2 : get_custom_checker_info (Except.ok s) = none := by
    show (if s ≠ "" ∧ strStartsWith "std::" s = false
      then some (CheckerInfo.mk s "custom") else none) = none
    rw [if_neg]
    rintro ⟨-, hf⟩
    rw [hs] at hf
    exact absurd hf (by decide)
  exact ⟨rfl, h2, h2.symm, rfl⟩

/-- C10 witness at a standard checker name and a transport error. -/
theorem c10_checker_lookup_silent_witness :
    get_custom_checker_info (Except.error "connection reset") = none
    ∧ get_custom_checker_info (Except.ok "std::ncmp.cpp") = none
    ∧ get_custom_checker_info (Except.error "connection reset")
      = get_custom_checker_info (Except.ok "std::ncmp.cpp")
    ∧ upload_custom_checker_to_storage c10NoneEnv "7" = [] :=
  c10_checker_lookup_silent "connection reset" "std::ncmp.cpp" (by decide) "7"

/-! ## Theorems: the serialized field set (C9) -/

/-- C9: the Redis serialization writes exactly the keys index, input,
output, description, is_sample, and never writes manual; a record built
by the API fetch carries the manual key, so a cache hit lacks the flag a
direct fetch provides. -/
theorem c9_manual_flag_not_cached (tc : List (String × JVal)) (idx : Nat)
    (index : Nat) (manual is_sample : Bool) (description input output : String) :
    (redis_serialized_obj tc idx).map Prod.fst
      = ["index", "input", "output", "description", "is_sample"]
    ∧ (redis_serialized_obj tc idx).lookup "manual" = none
    ∧ (api_test_case_obj index manual is_sample description input output).lookup "manual"
      = some (JVal.b manual) :=
  ⟨rfl, rfl, rfl⟩

/-! ## Theorems: the signature construction (C7) -/

theorem char_toNat_inj {a b : Char} (h : a.toNat = b.toNat) : a = b := by
  apply Char.eq_of_val_eq
  apply UInt32.eq_of_val_eq
  exact Fin.ext h

theorem strLeB_total : ∀ x y : List Char, strLeB x y = true ∨ strLeB y x = true := by
  intro x
  induction x with
  | nil => intro y; exact Or.inl rfl
  | cons a as ih =>
      intro y
      cases y with
      | nil => exact Or.inr rfl
      | cons b bs =>
          simp only [strLeB]
          by_cases hab : a = b
          · subst hab
            rw [if_pos rfl, if_pos rfl]
            exact ih bs
          · rw [if_neg hab, if_neg (fun he => hab he.symm)]
            have hne : a.toNat ≠ b.toNat := fun he => hab (char_toNat_inj he)
            rcases Nat.lt_or_ge a.toNat b.toNat with h | h
            · exact Or.inl (decide_eq_true h)
            · exact Or.inr (decide_eq_true (by omega))

theorem strLeB_trans : ∀ x y z : List Char,
    strLeB x y = true → strLeB y z = true → strLeB x z = true := by
  intro x
  induction x with
  | nil => intro y z _ _; rfl
  | cons a as ih =>
      intro y z hxy hyz
      cases y with
      | nil => simp only [strLeB] at hxy; exact Bool.noConfusion hxy
      | cons b bs =>
          cases z with
          | nil => simp only [strLeB] at hyz; exact Bool.noConfusion hyz
          | cons c cs =>
              simp only [strLeB] at hxy hyz ⊢
              by_cases hab : a = b
              · subst hab
                rw [if_pos rfl] at hxy
                by_cases hac : a = c
                · subst hac
                  rw [if_pos rfl] at hyz ⊢
                  exact ih bs cs hxy hyz
                · rw [if_neg hac] at hyz ⊢
                  exact hyz
              · rw [if_neg hab] at hxy
                have hlt : a.toNat < b.toNat := of_decide_eq_true hxy
                by_cases hbc : b = c
                · subst hbc
                  rw [if_neg hab]
                  exact decide_eq_true hlt
                · rw [if_neg hbc] at hyz
                  have hlt2 : b.toNat < c.toNat := of_decide_eq_true hyz
                  have hac : a ≠ c := fun he => by rw [he] at hlt; omega
                  rw [if_neg hac]
                  exact decide_eq_true (Nat.lt_trans hlt hlt2)

theorem strLeB_antisymm : ∀ x y : List Char,
    strLeB x y = true → strLeB y x = true → x = y := by
  intro x
  induction x with
  | nil =>
      intro y h1 h2
      cases y with
      | nil => rfl
      | cons b bs => simp only [strLeB] at h2; exact Bool.noConfusion h2
  | cons a as ih =>
      intro y h1 h2
      cases y with
      | nil => simp only [strLeB] at h1; exact Bool.noConfusion h1
      | cons b bs =>
          simp only [strLeB] at h1 h2
          by_cases hab : a = b
          · subst hab
            rw [if_pos rfl] at h1 h2
            rw [ih bs h1 h2]
          · rw [if_neg hab] at h1
            rw [if_neg (fun he => hab he.symm)] at h2
            have hlt1 : a.toNat < b.toNat := of_decide_eq_true h1
            have hlt2 : b.toNat < a.toNat := of_decide_eq_true h2
            omega

theorem any_key_iff (l : List (String × String)) (k : String) :
    ((l.any fun p => p.1 = k) = true) ↔ ∃ p ∈ l, p.1 = k := by
  simp [List.any_eq_true]

theorem pySetItem_perm {l₁ l₂ : List (String × String)} (h : l₁.Perm l₂)
    (k v : String) : (pySetItem l₁ k v).Perm (pySetItem l₂ k v) := by
  unfold pySetItem
  by_cases hmem : ∃ p ∈ l₁, p.1 = k
  · obtain ⟨p, hp, he⟩ := hmem
    rw [if_pos ((any_key_iff l₁ k).mpr ⟨p, hp, he⟩),
      if_pos ((any_key_iff l₂ k).mpr ⟨p, h.subset hp, he⟩)]
    exact h.map _
  · rw [if_neg (fun hx => hmem ((any_key_iff l₁ k).mp hx)),
      if_neg (fun hx => hmem (by
        obtain ⟨p, hp, he⟩ := (any_key_iff l₂ k).mp hx
        exact ⟨p, h.symm.subset hp, he⟩))]
    exact h.append_right [(k, v)]

theorem pySetItem_nodup_keys {l : List (String × String)}
    (h : (l.map Prod.fst).Nodup) (k v : String) :
    ((pySetItem l k v).map Prod.fst).Nodup := by
  unfold pySetItem
  by_cases hany : (l.any fun p => p.1 = k) = true
  · rw [if_pos hany]
    have he : ((l.map fun p => if p.1 = k then (k, v) else p).map Prod.fst)
        = l.map Prod.fst := by
      rw [List.map_map]
      apply List.map_congr_left
      intro p _
      by_cases hpk : p.1 = k
      · simp [hpk]
      · simp [hpk]
    rw [he]
    exact h
  · rw [if_neg hany, List.map_append, List.nodup_append]
    refine ⟨h, by simp, ?_⟩
    intro x hx hxk
    have hxk2 : x = k := by simpa using hxk
    subst hxk2
    obtain ⟨p, hp, he⟩ := List.mem_map.mp hx
    exact hany ((any_key_iff l x).mpr ⟨p, hp, he⟩)

theorem pySorted_eq_of_perm {l₁ l₂ : List (String × String)} (h : l₁.Perm l₂)
    (hnd : (l₁.map Prod.fst).Nodup) : pySorted l₁ = pySorted l₂ := by
  haveI : IsTotal (String × String) paramKeyLe :=
    ⟨fun a b => strLeB_total a.1.data b.1.data⟩
  haveI : IsTrans (String × String) paramKeyLe :=
    ⟨fun a b c => strLeB_trans a.1.data b.1.data c.1.data⟩
  have hperm : (pySorted l₁).Perm (pySorted l₂) :=
    ((List.perm_insertionSort paramKeyLe l₁).trans h).trans
      (List.perm_insertionSort paramKeyLe l₂).symm
  have hkey : ∀ m : List (String × String), m.Perm l₁ →
      List.Pairwise (fun a b : String × String => a.1 ≠ b.1) m := by
    intro m hm
    rw [← List.pairwise_map]
    exact ((hm.map Prod.fst).nodup_iff.mpr hnd : (m.map Prod.fst).Nodup)
  have hstrict : ∀ m : List (String × String), m.Perm l₁ →
      List.Sorted paramKeyLe m →
      List.Sorted (fun a b : String × String => paramKeyLe a b ∧ a.1 ≠ b.1) m := by
    intro m hm hs
    exact hs.and (hkey m hm)
  haveI : IsAntisymm (String × String)
      (fun a b : String × String => paramKeyLe a b ∧ a.1 ≠ b.1) :=
    ⟨fun a b h1 h2 =>
      absurd (String.ext (strLeB_antisymm a.1.data b.1.data h1.1 h2.1)) h1.2⟩
  exact List.eq_of_perm_of_sorted hperm
    (hstrict _ (List.perm_insertionSort paramKeyLe l₁)
      (List.sorted_insertionSort paramKeyLe l₁))
    (hstrict _ ((List.perm_insertionSort paramKeyLe l₂).trans h.symm)
      (List.sorted_insertionSort paramKeyLe l₂))

/-- C7: with the nonce and the timestamp held fixed, the signature is
a deterministic function of the parameter set — two runs over any two
orderings of the same parameter dictionary produce identical output —
and it equals the nonce concatenated with the lowercase hex SHA-512
digest of nonce/method?params#secret, where params is the
URL-encoding of the lexicographically key-sorted parameter list
including apiKey and time. -/
theorem c7_signature_deterministic (api_key api_secret nonce method : String)
    (now : Nat) (params params2 : List (String × String))
    (hperm : params.Perm params2)
    (hnd : (params.map Prod.fst).Nodup) :
    generate_api_sig api_key api_secret now nonce method params
      = generate_api_sig api_key api_secret now nonce method params2
    ∧ generate_api_sig api_key api_secret now nonce method params
      = (nonce ++ sha512hex (nonce ++ "/" ++ method ++ "?"
          ++ urlencode (pySorted
              (pySetItem (pySetItem params "apiKey" api_key) "time" (natToDec now)))
          ++ "#" ++ api_secret), now) := by
  constructor
  · have hsorted : pySorted
        (pySetItem (pySetItem params "apiKey" api_key) "time" (natToDec now))
        = pySorted
          (pySetItem (pySetItem params2 "apiKey" api_key) "time" (natToDec now)) :=
      pySorted_eq_of_perm
        (pySetItem_perm (pySetItem_perm hperm "apiKey" api_key) "time" (natToDec now))
        (pySetItem_nodup_keys (pySetItem_nodup_keys hnd "apiKey" api_key)
          "time" (natToDec now))
    simp only [generate_api_sig]
    rw [hsorted]
  · rfl

/-- C7 witness: the same two-parameter dictionary in its two orderings
signs identically. -/
theorem c7_signature_deterministic_witness :
    generate_api_sig "key" "sec" 5 "n0nc3a" "problem.info"
        [("testset", "tests"), ("problemId", "44")]
      = generate_api_sig "key" "sec" 5 "n0nc3a" "problem.info"
        [("problemId", "44"), ("testset", "tests")] :=
  (c7_signature_deterministic "key" "sec" "n0nc3a" "problem.info" 5
    [("testset", "tests"), ("problemId", "44")]
    [("problemId", "44"), ("testset", "tests")]
    (by decide) (by decide)).1

set_option maxRecDepth 10000 in
/-- Reference vector: the embedded SHA-512 agrees with FIPS 180-4 on the
three-byte message abc. -/
theorem sha512hex_fips_vector :
    sha512hex "abc"
      = "ddaf35a193617abacc417349ae20413112e6fa4e89a97ea20a9eeee64b55d39a2192992a274fc1a836ba3c23a3feebbd454d4423643ce80e2a9ac94fa54ca49f" := by
  rfl

set_option maxRecDepth 10000 in
/-- Reference vector: the embedded signature construction agrees with
the Python implementation (hashlib + urlencode) on a concrete request. -/
theorem generate_api_sig_reference_vector :
    generate_api_sig "k" "s" 2 "ab12cd" "problem.info" [("problemId", "1")]
      = ("ab12cda61b566b282fad6662e7e152dcf7d3e97b6741de83b30bebdf5e2005f0f9a82120532c61b09360c14599f5d07c0a03028eeeb8e3a2dcee77234ce79761298641",
        2) := by
  rfl

end PolygonMigration
